import Mathlib

/-!
Verification of the content-fetch pipeline of a server-rendered blog front end
(`src/app/page.tsx` and `src/app/blog/page.tsx`).

The repository's logic is three near-duplicate data-fetching functions that
POST a fixed GraphQL query to a WordPress endpoint and shallow-parse the JSON
response inside a try/catch.  We embed the JavaScript semantics the code relies
on — truthiness, member access that throws `TypeError` on nullish receivers,
optional chaining, and the `||` default — over a small JSON value type, and
translate each fetch function line by line.  A fetch attempt's observable input
is the backend's outcome: either a transport-level failure (the `fetch` promise
rejecting, or `res.json()` throwing on a non-JSON body) or a parsed JSON value.
-/

/-- A JavaScript/JSON value as seen by the fetch helpers.  `undefined` is the
JavaScript `undefined` produced by reading an absent property; it is not valid
JSON but flows through the untyped code. -/
inductive JsValue where
  | undefined
  | null
  | bool (b : Bool)
  | num (n : Int)
  | str (s : String)
  | arr (elems : List JsValue)
  | obj (fields : List (String × JsValue))

/-- JavaScript truthiness: `undefined`, `null`, `false`, `0` and `""` are falsy;
every object and array (even empty) is truthy. -/
def truthy : JsValue → Bool
  | .undefined => false
  | .null => false
  | .bool b => b
  | .num n => n != 0
  | .str s => s != ""
  | .arr _ => true
  | .obj _ => true

/-- `undefined` and `null` are the two nullish values: member access on them
throws `TypeError`; optional chaining short-circuits on them. -/
def isNullish : JsValue → Bool
  | .undefined => true
  | .null => true
  | _ => false

/-- Property read on a non-nullish receiver: object fields by key, anything
else (and an absent key) yields `undefined`.  The keys used by this program
(`data`, `errors`, `posts`, `nodes`, `post`, `slug`) collide with no built-in
property of primitives or arrays. -/
def getField : JsValue → String → JsValue
  | .obj fields, k =>
    match fields.lookup k with
    | some v => v
    | none => .undefined
  | _, _ => .undefined

/-- Plain member access `v.k`: throws `TypeError` (modelled as `Except.error`)
when the receiver is nullish, otherwise reads the property. -/
def jsGet (v : JsValue) (k : String) : Except Unit JsValue :=
  if isNullish v then .error () else .ok (getField v k)

/-- Optional chaining `v?.k`: `undefined` when the receiver is nullish,
otherwise an ordinary property read.  Never throws. -/
def optChain (v : JsValue) (k : String) : JsValue :=
  if isNullish v then .undefined else getField v k

mutual
/-- `JSON.stringify`, restricted to what the debug page feeds it (no escaping
of quote characters inside strings is modelled; the program never inspects the
produced text). -/
def stringify : JsValue → String
  | .undefined => "null"
  | .null => "null"
  | .bool true => "true"
  | .bool false => "false"
  | .num n => toString n
  | .str s => "\"" ++ s ++ "\""
  | .arr xs => "[" ++ stringifyElems xs ++ "]"
  | .obj fs => "\x7b" ++ stringifyProps fs ++ "\x7d"

/-- Comma-separated serialization of array elements. -/
def stringifyElems : List JsValue → String
  | [] => ""
  | [x] => stringify x
  | x :: y :: xs => stringify x ++ "," ++ stringifyElems (y :: xs)

/-- Comma-separated serialization of object members. -/
def stringifyProps : List (String × JsValue) → String
  | [] => ""
  | [(k, v)] => "\"" ++ k ++ "\":" ++ stringify v
  | (k, v) :: m :: xs => "\"" ++ k ++ "\":" ++ stringify v ++ "," ++ stringifyProps (m :: xs)
end

/-- One backend outcome per fetch attempt: either the transport layer failed
(the `fetch` promise rejected — network/DNS/timeout — or `res.json()` threw on
an unparsable body; both land in the same `catch`), or a JSON value was
obtained. -/
inductive BackendResponse where
  | transportError (msg : String)
  | jsonResponse (json : JsValue)

namespace HomePage

/-- `getPosts` of `src/app/page.tsx` (lines 56–76), as a function of the
backend outcome.  The whole body sits in one try/catch that returns `[]`;
each member access that can throw is threaded through `jsGet`, with its
`error` branch landing in that catch.  On a truthy `json.errors` it logs and
returns `[]`; otherwise it returns `json.data.posts.nodes` unchecked —
whatever value that is. -/
def getPosts (r : BackendResponse) : JsValue :=
  match r with
  | .transportError _ => .arr []
  | .jsonResponse json =>
    match jsGet json "errors" with
    | .error _ => .arr []
    | .ok errs =>
      if truthy errs then .arr []
      else
        match jsGet json "data" with
        | .error _ => .arr []
        | .ok d =>
          match jsGet d "posts" with
          | .error _ => .arr []
          | .ok p =>
            match jsGet p "nodes" with
            | .error _ => .arr []
            | .ok nodes => nodes

end HomePage

namespace BlogPage

/-- `.map(post => ({ slug: post.slug }))` of `generateStaticParams`: reading
`.slug` throws on a nullish element, aborting the whole map into the catch. -/
def mapSlugParams : List JsValue → Except Unit (List JsValue)
  | [] => .ok []
  | post :: rest =>
    match jsGet post "slug" with
    | .error e => .error e
    | .ok s =>
      match mapSlugParams rest with
      | .error e => .error e
      | .ok ys => .ok (JsValue.obj [("slug", s)] :: ys)

/-- `generateStaticParams` of `src/app/blog/page.tsx` (lines 67–89).  Guard:
`if (!json.data?.posts?.nodes) return []` (optional chaining, then a falsiness
check); then `json.data.posts.nodes.map(...)` with plain accesses.  Calling
`.map` on a non-array value throws `TypeError`, caught into `[]`. -/
def generateStaticParams (r : BackendResponse) : JsValue :=
  match r with
  | .transportError _ => .arr []
  | .jsonResponse json =>
    match jsGet json "data" with
    | .error _ => .arr []
    | .ok d =>
      if ¬ truthy (optChain (optChain d "posts") "nodes") then .arr []
      else
        match jsGet json "data" with
        | .error _ => .arr []
        | .ok d2 =>
          match jsGet d2 "posts" with
          | .error _ => .arr []
          | .ok p2 =>
            match jsGet p2 "nodes" with
            | .error _ => .arr []
            | .ok n2 =>
              match n2 with
              | .arr xs =>
                match mapSlugParams xs with
                | .error _ => .arr []
                | .ok ys => .arr ys
              | _ => .arr []

/-- `getPost` of `src/app/blog/page.tsx` (lines 94–126), the static-generation
detail page variant.  Returns `Post | null`, modelled as `Option JsValue`:
`none` is the `null` return (GraphQL errors, missing post, or any thrown
error caught by the enclosing catch). -/
def getPost (r : BackendResponse) : Option JsValue :=
  match r with
  | .transportError _ => none
  | .jsonResponse json =>
    match jsGet json "errors" with
    | .error _ => none
    | .ok errs =>
      if truthy errs then none
      else
        match jsGet json "data" with
        | .error _ => none
        | .ok d =>
          if ¬ truthy (optChain d "post") then none
          else
            match jsGet json "data" with
            | .error _ => none
            | .ok d2 =>
              match jsGet d2 "post" with
              | .error _ => none
              | .ok p2 => some p2

end BlogPage

namespace BlogDebug

/-- `APIResponse` of the debug detail page (`src/app/blog/page.tsx` lines
331–335): `post: Post | null`, optional `error` text, and `debugData`
carrying the raw parsed response. -/
structure APIResponse where
  post : Option JsValue
  error : Option String
  debugData : JsValue

/-- The `catch` branch of the debug `getPost`: `post: null`,
`error: error.message`, `debugData: { error: 'Network request failed' }`. -/
def apiCatch (msg : String) : APIResponse :=
  ⟨none, some msg, JsValue.obj [("error", JsValue.str "Network request failed")]⟩

/-- `getPost` of the debug detail page (lines 340–366).  Builds the
`APIResponse` literal in source order: `post: json.data?.post || null`
(plain access `json.data`, which throws on a nullish `json`, then optional
chaining and the `||` falsy-to-null default), `error: json.errors ?
JSON.stringify(json.errors) : undefined`, `debugData: json`. -/
def getPost (r : BackendResponse) : APIResponse :=
  match r with
  | .transportError msg => apiCatch msg
  | .jsonResponse json =>
    match jsGet json "data" with
    | .error _ => apiCatch "TypeError"
    | .ok d =>
      match jsGet json "errors" with
      | .error _ => apiCatch "TypeError"
      | .ok errs =>
        ⟨(if truthy (optChain d "post") then some (optChain d "post") else none),
         (if truthy errs then some (stringify errs) else none),
         json⟩

end BlogDebug

namespace Backend

/-- A category label of a content item (name + slug pair, §3 of the spec). -/
structure Category where
  name : String
  slug : String

/-- A ContentItem held by the remote content service: the fields the three
query documents project (id, slug, title, body markup, excerpt, publish date,
author name, optional cover-image URL, category labels). -/
structure ContentItem where
  id : String
  slug : String
  title : String
  content : String
  excerpt : String
  date : String
  authorName : String
  featuredImageUrl : Option String
  categories : List Category

/-- The page-size argument of `GET_POSTS_QUERY` (`posts(first: 12)`,
`src/app/page.tsx` line 11). -/
def postsFirst : Nat := 12

/-- The page-size argument of `GET_POST_SLUGS_QUERY` (`posts(first: 100)`,
`src/app/blog/page.tsx` line 15). -/
def slugsFirst : Nat := 100

/-- The `featuredImage { node { sourceUrl } } }` projection: the backend
returns `null` when the item has no cover image. -/
def projectImage : Option String → JsValue
  | some u => .obj [("node", .obj [("sourceUrl", .str u)])]
  | none => .null

/-- One node of the `GET_POSTS_QUERY` response: id, slug, title, excerpt,
date, author name, optional cover image, categories (name + slug), exactly
the fields the query document selects. -/
def projectListItem (it : ContentItem) : JsValue :=
  .obj [("id", .str it.id), ("slug", .str it.slug), ("title", .str it.title),
        ("excerpt", .str it.excerpt), ("date", .str it.date),
        ("author", .obj [("node", .obj [("name", .str it.authorName)])]),
        ("featuredImage", projectImage it.featuredImageUrl),
        ("categories", .obj [("nodes", .arr (it.categories.map fun c =>
          .obj [("name", .str c.name), ("slug", .str c.slug)]))])]

/-- The `post` object of the `GET_SINGLE_POST_QUERY` response: id, title,
full body markup (`content`), date, excerpt, author name, optional cover
image, categories (name only), exactly the fields the query document
selects. -/
def projectSinglePost (it : ContentItem) : JsValue :=
  .obj [("id", .str it.id), ("title", .str it.title),
        ("content", .str it.content), ("date", .str it.date),
        ("excerpt", .str it.excerpt),
        ("author", .obj [("node", .obj [("name", .str it.authorName)])]),
        ("featuredImage", projectImage it.featuredImageUrl),
        ("categories", .obj [("nodes", .arr (it.categories.map fun c =>
          .obj [("name", .str c.name)]))])]

/-- Modelled from the spec (§6 wire contract): the content service's
response to `GET_POSTS_QUERY` over a store holding `items` in backend order —
`{ data: { posts: { nodes: [...] } } }` with the first `12` items projected,
order preserved. -/
def respondList (items : List ContentItem) : JsValue :=
  .obj [("data", .obj [("posts", .obj [("nodes",
    .arr ((items.take postsFirst).map projectListItem))])])]

/-- Modelled from the spec (§6 wire contract): the response to
`GET_POST_SLUGS_QUERY` — the first `100` items' slugs, order preserved. -/
def respondSlugs (items : List ContentItem) : JsValue :=
  .obj [("data", .obj [("posts", .obj [("nodes",
    .arr ((items.take slugsFirst).map fun it =>
      JsValue.obj [("slug", JsValue.str it.slug)]))])])]

/-- Modelled from the spec (§6 wire contract): the response to
`GET_SINGLE_POST_QUERY` with variable `slug`, matched by exact slug identity —
`{ data: { post: <projection> } }` when a matching item exists, `{ data:
{ post: null } }` otherwise. -/
def respondSingle (items : List ContentItem) (slug : String) : JsValue :=
  .obj [("data", .obj [("post",
    match items.find? (fun it => it.slug == slug) with
    | some it => projectSinglePost it
    | none => .null)])]

end Backend

/-!  Claim theorems.  -/

/-- C1: for every backend outcome — transport failure (which also covers a
thrown JSON parse) or a response carrying a GraphQL `errors` array — the
listing fetch `getPosts` returns the empty sequence without raising, and all
three fetch operations return their defined empty/absent outcome on network
failure. -/
theorem fetch_failures_degrade_silently :
    (∀ msg,
      HomePage.getPosts (BackendResponse.transportError msg) = JsValue.arr [] ∧
      BlogPage.generateStaticParams (BackendResponse.transportError msg) = JsValue.arr [] ∧
      BlogPage.getPost (BackendResponse.transportError msg) = none ∧
      (BlogDebug.getPost (BackendResponse.transportError msg)).post = none) ∧
    (∀ json es, jsGet json "errors" = Except.ok (JsValue.arr es) →
      HomePage.getPosts (BackendResponse.jsonResponse json) = JsValue.arr []) := by
  constructor
  · exact fun msg => ⟨rfl, rfl, rfl, rfl⟩
  · intro json es h
    simp only [HomePage.getPosts]
    rw [h]
    rfl

/-- C1 witness: a concrete response whose `errors` field is an (empty) array
is collapsed to the empty post list. -/
theorem fetch_failures_degrade_silently_witness :
    HomePage.getPosts (BackendResponse.jsonResponse
      (JsValue.obj [("errors", JsValue.arr [])])) = JsValue.arr [] :=
  fetch_failures_degrade_silently.2 (JsValue.obj [("errors", JsValue.arr [])]) [] rfl

/-- C4: for every slug present in the backend, the standard `getPost` returns
the backend's projection of that item unchanged — Found with field-for-field
equality on id, title, body markup, date, excerpt, author name, optional
cover image and categories. -/
theorem getBySlug_found_exact (items : List Backend.ContentItem) (slug : String)
    (it : Backend.ContentItem)
    (h : items.find? (fun x => x.slug == slug) = some it) :
    BlogPage.getPost (BackendResponse.jsonResponse (Backend.respondSingle items slug)) =
      some (Backend.projectSinglePost it) := by
  unfold BlogPage.getPost Backend.respondSingle
  rw [h]
  rfl

/-- C4 witness: a one-item store queried with its own slug. -/
theorem getBySlug_found_exact_witness :
    BlogPage.getPost (BackendResponse.jsonResponse
      (Backend.respondSingle [⟨"1", "hello", "Hello", "<p>hi</p>", "ex", "2024-01-01",
        "Ann", some "https://img.example/c.png", [⟨"News", "news"⟩]⟩] "hello")) =
      some (Backend.projectSinglePost ⟨"1", "hello", "Hello", "<p>hi</p>", "ex",
        "2024-01-01", "Ann", some "https://img.example/c.png", [⟨"News", "news"⟩]⟩) :=
  getBySlug_found_exact _ "hello" _ rfl

/-- C5: against a backend holding `items`, `getPosts` returns exactly the
first `min (length items) 12` items in backend order, projected per the
listing query. -/
theorem listRecent_returns_first_twelve (items : List Backend.ContentItem) :
    HomePage.getPosts (BackendResponse.jsonResponse (Backend.respondList items)) =
      JsValue.arr ((items.take Backend.postsFirst).map Backend.projectListItem) ∧
    ((items.take Backend.postsFirst).map Backend.projectListItem).length =
      min items.length 12 := by
  refine ⟨rfl, ?_⟩
  simp [Backend.postsFirst, Nat.min_comm]

/-- C8: each fetch is a deterministic function of the backend response —
two attempts observing the identical backend outcome produce identical
projected results at all four call sites. -/
theorem fetch_idempotent (r₁ r₂ : BackendResponse) (h : r₁ = r₂) :
    HomePage.getPosts r₁ = HomePage.getPosts r₂ ∧
    BlogPage.generateStaticParams r₁ = BlogPage.generateStaticParams r₂ ∧
    BlogPage.getPost r₁ = BlogPage.getPost r₂ ∧
    BlogDebug.getPost r₁ = BlogDebug.getPost r₂ := by
  subst h
  exact ⟨rfl, rfl, rfl, rfl⟩

/-- C8 witness: two fetches of one concrete response agree. -/
theorem fetch_idempotent_witness :
    HomePage.getPosts (BackendResponse.transportError "timeout") =
      HomePage.getPosts (BackendResponse.transportError "timeout") ∧
    BlogPage.generateStaticParams (BackendResponse.transportError "timeout") =
      BlogPage.generateStaticParams (BackendResponse.transportError "timeout") ∧
    BlogPage.getPost (BackendResponse.transportError "timeout") =
      BlogPage.getPost (BackendResponse.transportError "timeout") ∧
    BlogDebug.getPost (BackendResponse.transportError "timeout") =
      BlogDebug.getPost (BackendResponse.transportError "timeout") :=
  fetch_idempotent (BackendResponse.transportError "timeout")
    (BackendResponse.transportError "timeout") rfl

/-- The route-param map of `generateStaticParams` is the identity on a list of
well-formed `{ slug: <string> }` nodes, and never throws on one. -/
theorem mapSlugParams_on_slug_nodes (l : List Backend.ContentItem) :
    BlogPage.mapSlugParams (l.map fun it => JsValue.obj [("slug", JsValue.str it.slug)]) =
      Except.ok (l.map fun it => JsValue.obj [("slug", JsValue.str it.slug)]) := by
  induction l with
  | nil => rfl
  | cons it rest ih =>
    simp only [List.map_cons, BlogPage.mapSlugParams]
    rw [ih]
    rfl

/-- A backend response carrying a GraphQL `errors` array alongside a usable
`data.posts.nodes` list; `generateStaticParams` never consults `errors`. -/
def partialSlugsResponse : JsValue :=
  .obj [("errors", .arr [.str "server warning"]),
        ("data", .obj [("posts", .obj [("nodes",
          .arr [.obj [("slug", .str "s1")]])])])]

/-- C6 counterexample: on a response with the `errors` array present but a
usable `data.posts.nodes`, `generateStaticParams` returns the non-empty slug
list — not the empty sequence the claim requires on any error. -/
theorem listAllSlugs_nonempty_despite_errors :
    jsGet partialSlugsResponse "errors" =
      Except.ok (JsValue.arr [JsValue.str "server warning"]) ∧
    BlogPage.generateStaticParams (BackendResponse.jsonResponse partialSlugsResponse) =
      JsValue.arr [JsValue.obj [("slug", JsValue.str "s1")]] ∧
    JsValue.arr [JsValue.obj [("slug", JsValue.str "s1")]] ≠ JsValue.arr [] :=
  ⟨rfl, rfl, by simp⟩

/-- C6 amended: `generateStaticParams` returns the backend-ordered slug route
params truncated at the query's page size of 100 — exactly 100 when the
backend holds more than 100 items, the excess silently omitted.  It returns
the empty sequence on transport failure, on a nullish response body, and on
every response without a truthy `data.posts.nodes` (which covers the plain
GraphQL-error response, where `data` is null or absent); but the `errors`
field itself is never consulted, so slugs arriving alongside errors are
returned anyway. -/
theorem listAllSlugs_bounded (items : List Backend.ContentItem) (msg : String) :
    BlogPage.generateStaticParams (BackendResponse.transportError msg) = JsValue.arr [] ∧
    BlogPage.generateStaticParams (BackendResponse.jsonResponse (Backend.respondSlugs items)) =
      JsValue.arr ((items.take Backend.slugsFirst).map fun it =>
        JsValue.obj [("slug", JsValue.str it.slug)]) ∧
    (Backend.slugsFirst < items.length →
      ((items.take Backend.slugsFirst).map fun it =>
        JsValue.obj [("slug", JsValue.str it.slug)]).length = 100) ∧
    (∀ json d, jsGet json "data" = Except.ok d →
      truthy (optChain (optChain d "posts") "nodes") = false →
      BlogPage.generateStaticParams (BackendResponse.jsonResponse json) = JsValue.arr []) ∧
    (∀ json, isNullish json = true →
      BlogPage.generateStaticParams (BackendResponse.jsonResponse json) = JsValue.arr []) := by
  refine ⟨rfl, ?_, ?_, ?_, ?_⟩
  · have hred : BlogPage.generateStaticParams
        (BackendResponse.jsonResponse (Backend.respondSlugs items)) =
        match BlogPage.mapSlugParams ((items.take Backend.slugsFirst).map fun it =>
          JsValue.obj [("slug", JsValue.str it.slug)]) with
        | .error _ => JsValue.arr []
        | .ok ys => JsValue.arr ys := rfl
    rw [hred, mapSlugParams_on_slug_nodes]
  · intro h
    simp only [Backend.slugsFirst, List.length_map, List.length_take] at h ⊢
    omega
  · intro json d hd hguard
    simp only [BlogPage.generateStaticParams]
    rw [hd]
    simp [hguard]
  · intro json hn
    simp [BlogPage.generateStaticParams, jsGet, hn]

/-- C6 witness: a backend of 101 identical items yields exactly 100 route
params, and a response whose `data` is null yields the empty sequence. -/
theorem listAllSlugs_bounded_witness :
    (((List.replicate 101 (⟨"1", "s", "T", "c", "e", "d", "a", none,
        []⟩ : Backend.ContentItem)).take Backend.slugsFirst).map fun it =>
        JsValue.obj [("slug", JsValue.str it.slug)]).length = 100 ∧
    BlogPage.generateStaticParams (BackendResponse.jsonResponse
      (JsValue.obj [("data", JsValue.null)])) = JsValue.arr [] := by
  constructor
  · exact (listAllSlugs_bounded (List.replicate 101
      (⟨"1", "s", "T", "c", "e", "d", "a", none, []⟩ : Backend.ContentItem)) "msg").2.2.1
      (by simp [Backend.slugsFirst])
  · exact (listAllSlugs_bounded [] "msg").2.2.2.1
      (JsValue.obj [("data", JsValue.null)]) JsValue.null rfl rfl

/-- C7: at the diagnostic call site, a slug with no matching backend content
yields a non-Found outcome whose `debugData` is the literal raw backend
response, verbatim. -/
theorem debug_missing_slug_raw_response (items : List Backend.ContentItem) (slug : String)
    (h : items.find? (fun x => x.slug == slug) = none) :
    (BlogDebug.getPost (BackendResponse.jsonResponse
      (Backend.respondSingle items slug))).post = none ∧
    (BlogDebug.getPost (BackendResponse.jsonResponse
      (Backend.respondSingle items slug))).debugData = Backend.respondSingle items slug := by
  unfold BlogDebug.getPost Backend.respondSingle
  rw [h]
  exact ⟨rfl, rfl⟩

/-- C7 witness: querying an empty store for a missing slug. -/
theorem debug_missing_slug_raw_response_witness :
    (BlogDebug.getPost (BackendResponse.jsonResponse
      (Backend.respondSingle [] "missing-slug"))).post = none ∧
    (BlogDebug.getPost (BackendResponse.jsonResponse
      (Backend.respondSingle [] "missing-slug"))).debugData =
      Backend.respondSingle [] "missing-slug" :=
  debug_missing_slug_raw_response [] "missing-slug" rfl

/-- A backend response carrying both a GraphQL `errors` array and a usable
`data.post` (a partial-error response, which GraphQL permits). -/
def partialErrorsResponse : JsValue :=
  .obj [("errors", .arr [.str "Internal server error"]),
        ("data", .obj [("post", .obj [("id", .str "1"), ("title", .str "T")])])]

/-- C2 counterexample: on a response whose `errors` array is present alongside
`data.post`, the diagnostic `getPost` returns a Found outcome — its `post`
field is populated — contradicting the claim that every call site yields
non-Found whenever `errors` is present. -/
theorem debug_found_despite_errors :
    jsGet partialErrorsResponse "errors" =
      Except.ok (JsValue.arr [JsValue.str "Internal server error"]) ∧
    ((BlogDebug.getPost (BackendResponse.jsonResponse partialErrorsResponse)).post).isSome =
      true :=
  ⟨rfl, rfl⟩

/-- C2 amended: on every response with an `errors` array present, the standard
`getPost` yields non-Found and does not throw; the diagnostic variant does not
throw either, but only guarantees that its result is non-Found or carries the
error text — when `data.post` is also present it returns Found with the error
recorded. -/
theorem errors_yield_nonFound_amended (json : JsValue) (es : List JsValue)
    (h : jsGet json "errors" = Except.ok (JsValue.arr es)) :
    BlogPage.getPost (BackendResponse.jsonResponse json) = none ∧
    ((BlogDebug.getPost (BackendResponse.jsonResponse json)).post = none ∨
     (BlogDebug.getPost (BackendResponse.jsonResponse json)).error ≠ none) := by
  have hn : isNullish json = false := by
    cases hc : isNullish json
    · rfl
    · rw [jsGet, hc] at h
      simp at h
  have hget : getField json "errors" = JsValue.arr es := by
    rw [jsGet, hn] at h
    simpa using h
  constructor
  · simp only [BlogPage.getPost, jsGet, hn, hget]
    rfl
  · right
    simp [BlogDebug.getPost, jsGet, hn, hget, truthy]

/-- C2 witness: the amended statement at the partial-error response. -/
theorem errors_yield_nonFound_witness :
    BlogPage.getPost (BackendResponse.jsonResponse partialErrorsResponse) = none ∧
    ((BlogDebug.getPost (BackendResponse.jsonResponse partialErrorsResponse)).post = none ∨
     (BlogDebug.getPost (BackendResponse.jsonResponse partialErrorsResponse)).error ≠ none) :=
  errors_yield_nonFound_amended partialErrorsResponse [JsValue.str "Internal server error"] rfl

/-- A partial-error response used against the exactly-one-variant invariant:
`data.post` usable and `errors` non-empty in the same response. -/
def partialDataResponse : JsValue :=
  .obj [("data", .obj [("post", .obj [("id", .str "7"), ("title", .str "Draft")])]),
        ("errors", .arr [.str "partial failure"])]

/-- C3 counterexample: a single fetch attempt at the diagnostic call site
whose result is simultaneously Found (`post` populated) and carrying an error
(`error` populated) — two variants populated at once. -/
theorem apiResponse_two_variants_at_once :
    ((BlogDebug.getPost (BackendResponse.jsonResponse partialDataResponse)).post).isSome =
      true ∧
    ((BlogDebug.getPost (BackendResponse.jsonResponse partialDataResponse)).error).isSome =
      true :=
  ⟨rfl, rfl⟩

/-- C3 amended: at the listing and standard detail call sites the result is a
single optional value, so one variant per attempt holds by construction; at
the diagnostic call site, `post` and `error` are both populated exactly when
the response carries both a truthy `data?.post` and a truthy `errors` field. -/
theorem apiResponse_variants_characterized (json d errs : JsValue)
    (hd : jsGet json "data" = Except.ok d)
    (he : jsGet json "errors" = Except.ok errs) :
    (((BlogDebug.getPost (BackendResponse.jsonResponse json)).post).isSome = true ∧
     ((BlogDebug.getPost (BackendResponse.jsonResponse json)).error).isSome = true) ↔
    (truthy (optChain d "post") = true ∧ truthy errs = true) := by
  simp only [BlogDebug.getPost]
  rw [hd, he]
  by_cases hp : truthy (optChain d "post") = true
  · by_cases hq : truthy errs = true
    · simp [hp, hq]
    · simp [hp, hq]
  · simp [hp]

/-- C3 witness: the characterization evaluated at the partial-error response. -/
theorem apiResponse_variants_witness :
    (((BlogDebug.getPost (BackendResponse.jsonResponse partialDataResponse)).post).isSome =
       true ∧
     ((BlogDebug.getPost (BackendResponse.jsonResponse partialDataResponse)).error).isSome =
       true) ↔
    (truthy (optChain (JsValue.obj [("post",
        JsValue.obj [("id", JsValue.str "7"), ("title", JsValue.str "Draft")])]) "post") =
       true ∧
     truthy (JsValue.arr [JsValue.str "partial failure"]) = true) :=
  apiResponse_variants_characterized partialDataResponse _ _ rfl rfl

/-- A response with a non-empty `errors` array and a usable `data.post`, on
which the two `getPost` variants disagree. -/
def errorsWithDataResponse : JsValue :=
  .obj [("errors", .arr [.str "deprecated field"]),
        ("data", .obj [("post", .obj [("id", .str "9"), ("title", .str "Nine")])])]

/-- C9 counterexample: for one identical backend response the standard
`getPost` classifies non-Found (the `errors` guard fires) while the debug
variant classifies Found (it ignores `errors` when `data.post` is usable) —
the two variants are not the same classification. -/
theorem variants_disagree_on_partial_errors :
    BlogPage.getPost (BackendResponse.jsonResponse errorsWithDataResponse) = none ∧
    ((BlogDebug.getPost (BackendResponse.jsonResponse errorsWithDataResponse)).post).isSome =
      true :=
  ⟨rfl, rfl⟩

/-- C9 amended: the standard and diagnostic `getPost` variants classify
identically — same Found/non-Found and the same post value — on every
transport failure and on every response except the partial-error profile:
for every response, either the two results coincide, or the response carries
a truthy `errors` field together with a truthy `data?.post`, the standard
variant returning non-Found and the diagnostic one returning that post
Found.  So the variants differ in classification only on partial-error
responses. -/
theorem variants_agree_without_errors (json : JsValue) :
    (∀ msg, BlogPage.getPost (BackendResponse.transportError msg) = none ∧
      (BlogDebug.getPost (BackendResponse.transportError msg)).post = none) ∧
    (BlogPage.getPost (BackendResponse.jsonResponse json) =
       (BlogDebug.getPost (BackendResponse.jsonResponse json)).post ∨
     (truthy (getField json "errors") = true ∧
      truthy (optChain (getField json "data") "post") = true ∧
      BlogPage.getPost (BackendResponse.jsonResponse json) = none ∧
      (BlogDebug.getPost (BackendResponse.jsonResponse json)).post =
        some (optChain (getField json "data") "post"))) := by
  refine ⟨fun msg => ⟨rfl, rfl⟩, ?_⟩
  cases hn : isNullish json with
  | true =>
    left
    simp [BlogPage.getPost, BlogDebug.getPost, jsGet, hn, BlogDebug.apiCatch]
  | false =>
    by_cases he : truthy (getField json "errors") = true
    · by_cases hp : truthy (optChain (getField json "data") "post") = true
      · right
        refine ⟨he, hp, ?_, ?_⟩
        · simp [BlogPage.getPost, jsGet, hn, he]
        · simp [BlogDebug.getPost, jsGet, hn, hp]
      · left
        have hp2 : truthy (optChain (getField json "data") "post") = false := by
          cases hc : truthy (optChain (getField json "data") "post")
          · rfl
          · exact absurd hc hp
        simp [BlogPage.getPost, BlogDebug.getPost, jsGet, hn, he, hp2]
    · left
      have hf : truthy (getField json "errors") = false := by
        cases hc : truthy (getField json "errors")
        · rfl
        · exact absurd hc he
      simp only [BlogPage.getPost, BlogDebug.getPost, jsGet, hn, hf, optChain]
      cases hdc : isNullish (getField json "data") with
      | true => simp [hdc, truthy]
      | false =>
        by_cases hp : truthy (getField (getField json "data") "post") = true
        · simp [hdc, hp, hf]
        · simp [hdc, hp, hf]

/-- C10 counterexample: on a success response whose `data.posts` object lacks
the `nodes` field, no exception occurs — `json.data.posts.nodes` simply reads
as `undefined` — and `getPosts` returns that `undefined` value, not the empty
sequence the claim states. -/
theorem getPosts_nodes_missing_not_empty :
    HomePage.getPosts (BackendResponse.jsonResponse
      (JsValue.obj [("data", JsValue.obj [("posts",
        JsValue.obj [("irrelevant", JsValue.null)])])])) = JsValue.undefined ∧
    JsValue.undefined ≠ JsValue.arr [] :=
  ⟨rfl, fun hc => JsValue.noConfusion hc⟩

/-- C10 amended: on an errors-free response, a missing `data` or missing
`data.posts` makes the chained member access throw `TypeError`, which the
enclosing catch converts to the empty sequence; but a missing
`data.posts.nodes` on an object-valued `data.posts` raises nothing and makes
`getPosts` return the `undefined` read, not the empty sequence. -/
theorem getPosts_malformed_amended (json d errs : JsValue)
    (he : jsGet json "errors" = Except.ok errs) (hf : truthy errs = false)
    (hd : jsGet json "data" = Except.ok d) :
    (isNullish d = true →
      HomePage.getPosts (BackendResponse.jsonResponse json) = JsValue.arr []) ∧
    (∀ p, jsGet d "posts" = Except.ok p → isNullish p = true →
      HomePage.getPosts (BackendResponse.jsonResponse json) = JsValue.arr []) ∧
    (∀ p, jsGet d "posts" = Except.ok p → jsGet p "nodes" = Except.ok JsValue.undefined →
      HomePage.getPosts (BackendResponse.jsonResponse json) = JsValue.undefined) := by
  refine ⟨?_, ?_, ?_⟩
  · intro h1
    simp only [HomePage.getPosts]
    rw [he, hd]
    simp [hf, jsGet, h1]
  · intro p hp h1
    simp only [HomePage.getPosts]
    rw [he, hd]
    simp only [hf, Bool.false_eq_true, if_false]
    rw [hp]
    simp [jsGet, h1]
  · intro p hp h1
    simp only [HomePage.getPosts]
    rw [he, hd]
    simp [hf, hp, h1]

/-- C10 witness: the amended statement's third case at a concrete response
with `nodes` absent. -/
theorem getPosts_malformed_witness :
    HomePage.getPosts (BackendResponse.jsonResponse
      (JsValue.obj [("data", JsValue.obj [("posts",
        JsValue.obj [("extra", JsValue.null)])])])) = JsValue.undefined :=
  (getPosts_malformed_amended
      (JsValue.obj [("data", JsValue.obj [("posts",
        JsValue.obj [("extra", JsValue.null)])])])
      (JsValue.obj [("posts", JsValue.obj [("extra", JsValue.null)])])
      JsValue.undefined rfl rfl rfl).2.2
    (JsValue.obj [("extra", JsValue.null)]) rfl rfl
